import Mathlib

/-!
Shallow embedding of the RAG orchestration and session-lifecycle core of the
Personal-Assistant-LLM repository.

The embedded code:
* `backend/src/services/ragService.js` — context retrieval rendering
  (`getRelevantContext`), prompt composition and the RAG orchestrator
  (`generateRAGResponse`);
* `backend/src/services/ollamaService.js` — the generation adapter
  (`generateResponse`), modelled as the full prompt text it sends to the model;
* the in-memory `SessionManager` (conversation store): `getConversation`,
  `addMessage`, `cleanupInactive`.

External providers (embedding, vector index, generation model) are modelled by
their behaviour on the one call the orchestrator makes: an `Except String`
value (or function) supplied as a parameter, `Except.error` standing for a
thrown exception.  JavaScript numbers carrying similarity scores are modelled
as rationals; possibly-absent fields as `Option`.
-/

namespace PersonalAssistant

/-- Message role, as used by the backend (user, assistant or system). -/
inductive Role where
  | user
  | assistant
  | system
  deriving DecidableEq

/-- A chat message as passed in `conversationHistory` ({ role, content }). -/
structure Message where
  role : Role
  content : String
  deriving DecidableEq

/-- A match returned by the vector index: `{ id, score, metadata }` with
`score` possibly absent and `metadata.text` possibly absent/empty. -/
structure RetrievedDoc where
  id : String
  score : Option ℚ
  text : Option String
  deriving DecidableEq

/-- Confidence label of a RAG result. -/
inductive Confidence where
  | high
  | medium
  | low
  deriving DecidableEq

/-- The shape returned by `generateRAGResponse`. -/
structure RAGResult where
  response : String
  sources : List RetrievedDoc
  confidence : Confidence
  deriving DecidableEq

/-- JavaScript `Array.prototype.join(sep)`. -/
def joinWith (sep : String) : List String → String
  | [] => ""
  | [a] => a
  | a :: b :: rest => a ++ sep ++ joinWith sep (b :: rest)

/-- JavaScript `Array.prototype.slice(-n)` (for `n > 0`): the last `n`
elements, or the whole array when it is shorter than `n`. -/
def sliceLast (n : Nat) (l : List α) : List α :=
  l.drop (l.length - n)

/-- JavaScript `Array.prototype.map((x, idx) => f(idx, x))`, carrying the
running index. -/
def mapWithIndex (f : Nat → α → β) : Nat → List α → List β
  | _, [] => []
  | i, a :: rest => f i a :: mapWithIndex f (i + 1) rest

/-- Three-digit zero-padded rendering of `n < 1000`. -/
def pad3 (n : Nat) : String :=
  if n < 10 then "00" ++ toString n
  else if n < 100 then "0" ++ toString n
  else toString n

/-- JavaScript `Number.prototype.toFixed(3)` on a rational score: round half
up to three decimals, i.e. `⌊q * 1000 + 1/2⌋` computed on the numerator and
denominator, then print with three digits after the point. -/
def toFixed3 (q : ℚ) : String :=
  let n : Int := Int.fdiv (2000 * q.num + (q.den : Int)) (2 * (q.den : Int))
  (if n < 0 then "-" else "") ++ toString (n.natAbs / 1000) ++ "." ++ pad3 (n.natAbs % 1000)

/-- One entry of `contextParts` in `getRelevantContext`: the header
`Source <idx + 1> (score: <score to three decimals, or n/a>):`, a newline,
and the metadata text (empty when the field is missing). -/
def renderContextPart (idx : Nat) (m : RetrievedDoc) : String :=
  "Source " ++ (toString (idx + 1) ++ (" (score: " ++
    ((match m.score with
      | some s => toFixed3 s
      | none => "n/a") ++ ("):\n" ++ m.text.getD ""))))

/-- The `contextText` built by `getRelevantContext`: the rendered parts joined by
blank lines. -/
def mkContextText (ms : List RetrievedDoc) : String :=
  joinWith "\n\n" (mapWithIndex renderContextPart 0 ms)

/-- Model of `getRelevantContext`: embedding + vector query (modelled by their combined
behaviour `searchResult`), then rendering.  A throw in either provider is the
`Except.error` case. -/
def getRelevantContext (searchResult : Except String (List RetrievedDoc)) :
    Except String (String × List RetrievedDoc) :=
  match searchResult with
  | .error e => .error e
  | .ok ms => .ok (mkContextText ms, ms)

/-- One line of the rendered conversation: the label `Assistant` when the
role is assistant and `User` otherwise, then a colon, a space and the
message content. -/
def renderMessageLine (m : Message) : String :=
  (if m.role = Role.assistant then "Assistant" else "User") ++ (": " ++ m.content)

/-- Rendering of a history window: one line per message, joined by newlines. -/
def renderHistoryLines (history : List Message) : String :=
  joinWith "\n" (history.map renderMessageLine)

/-- The fixed system prompt of `generateRAGResponse`. -/
def systemPromptText : String :=
  "You are an enterprise AI assistant. Use the following context to answer questions accurately. " ++
  "If the context doesn\x27t contain the answer, say that the information is not available in the knowledge base " ++
  "and avoid making up facts."

/-- The context section element: the context text, or the placeholder
`[No context available]` when it is empty. -/
def contextSectionText (contextText : String) : String :=
  if contextText = "" then "[No context available]" else contextText

/-- The history section element: the rendered history lines, or the
placeholder `[No previous conversation]` when they are empty. -/
def historySectionText (historyTail : List Message) : String :=
  if renderHistoryLines historyTail = "" then "[No previous conversation]"
  else renderHistoryLines historyTail

/-- The `ragPromptParts` array literal of `generateRAGResponse`. -/
def ragPromptParts (systemPrompt contextText : String) (historyTail : List Message)
    (userQuery : String) : List String :=
  [ "System: " ++ systemPrompt,
    "",
    "Context documents:",
    contextSectionText contextText,
    "",
    "Recent conversation:",
    historySectionText historyTail,
    "",
    "User question: " ++ userQuery,
    "",
    "Answer clearly and concisely. If you are unsure, say so explicitly." ]

/-- The composed prompt: the parts joined by newlines (the output of the
Prompt Composer). -/
def composePrompt (systemPrompt contextText : String) (historyTail : List Message)
    (userQuery : String) : String :=
  joinWith "\n" (ragPromptParts systemPrompt contextText historyTail userQuery)

/-- Score of a document, defaulting to 0 when the field is missing. -/
def scoreOrZero (d : RetrievedDoc) : ℚ :=
  d.score.getD 0

/-- Maximum of a score list, 0 for the empty list. -/
def maxScore : List ℚ → ℚ
  | [] => 0
  | s :: rest => rest.foldl max s

/-- The confidence computation of `generateRAGResponse` (lines 75-83). -/
def estimateConfidence (documents : List RetrievedDoc) : Confidence :=
  let m := maxScore (documents.map scoreOrZero)
  if mkRat 7 10 ≤ m then Confidence.high
  else if mkRat 4 10 ≤ m then Confidence.medium
  else Confidence.low

/-- The fallback text returned from the outer catch block of the
orchestrator. -/
def fallbackText : String :=
  "I encountered an error while trying to answer that question using the knowledge base. " ++
  "You may try again in a moment, or contact an administrator if the problem persists."

/-- The fallback result: fallback text, empty sources, low confidence. -/
def fallbackResult : RAGResult :=
  { response := fallbackText, sources := [], confidence := Confidence.low }

/-- The `contextResult` after the inner try/catch: the retrieval output, or
the default of empty context text and empty document list when retrieval
threw. -/
def contextResultOf (retrieval : Except String (List RetrievedDoc)) :
    String × List RetrievedDoc :=
  match getRelevantContext retrieval with
  | .ok r => r
  | .error _ => ("", [])

/-- The `ragPrompt` string built by `generateRAGResponse` for a given
retrieval behaviour, query and history. -/
def ragPromptOf (retrieval : Except String (List RetrievedDoc)) (userQuery : String)
    (conversationHistory : List Message) : String :=
  composePrompt systemPromptText (contextResultOf retrieval).1
    (sliceLast 5 conversationHistory) userQuery

/-- Model of `generateRAGResponse(userQuery, conversationHistory)`.
`retrieval` is the
behaviour of the embedding+vector-index pair on this call; `gen` is the
behaviour of `generateResponse(prompt, historyTail)`.  The outer try/catch
turns a generation throw into `fallbackResult`. -/
def generateRAGResponse (retrieval : Except String (List RetrievedDoc))
    (gen : String → List Message → Except String String)
    (userQuery : String) (conversationHistory : List Message) : RAGResult :=
  let documents := (contextResultOf retrieval).2
  let historyTail := sliceLast 5 conversationHistory
  match gen (ragPromptOf retrieval userQuery conversationHistory) historyTail with
  | .error _ => fallbackResult
  | .ok responseText =>
    { response := responseText, sources := documents,
      confidence := estimateConfidence documents }

/-- The `fullPrompt` built by `ollamaService.generateResponse` (line 22): the
prompt, then a blank line, the header `Conversation so far:`, the rendered
history, a blank line and the marker `Assistant:` — the text actually posted
to the generation model. -/
def ollamaFullPrompt (prompt : String) (conversationHistory : List Message) : String :=
  prompt ++ ("\n\nConversation so far:\n" ++
    (renderHistoryLines conversationHistory ++ "\n\nAssistant:"))

/-- The text the generation model receives for one orchestrator call: the
composed `ragPrompt` passed through the `fullPrompt` wrapping of the
adapter. -/
def textSentToModel (retrieval : Except String (List RetrievedDoc)) (userQuery : String)
    (conversationHistory : List Message) : String :=
  ollamaFullPrompt (ragPromptOf retrieval userQuery conversationHistory)
    (sliceLast 5 conversationHistory)

/-- A stored message of the SessionManager. -/
structure StoredMessage where
  role : Role
  content : String
  timestamp : String
  deriving DecidableEq

/-- Session metadata: set at creation, immutable. -/
structure SessionMetadata where
  userId : Option String
  startTime : String
  deriving DecidableEq

/-- One conversation session.  `lastActivity` is `none` when the field is
missing (`!session.lastActivity`). -/
structure Session where
  messages : List StoredMessage
  lastActivity : Option Int
  metadata : SessionMetadata
  deriving DecidableEq

/-- The `sessions` Map, modelled extensionally by its lookup function. -/
abbrev SessionStore := String → Option Session

/-- Model of `SessionManager.createSession` (fresh id and current time are
supplied as arguments). -/
def createSession (store : SessionStore) (id : String) (userId : Option String)
    (now : Int) (nowIso : String) : SessionStore :=
  fun k =>
    if k = id then
      some { messages := [], lastActivity := some now,
             metadata := { userId := userId, startTime := nowIso } }
    else store k

/-- Model of `SessionManager.addMessage`: silent no-op on a falsy or unknown id;
otherwise appends and refreshes `lastActivity`. -/
def addMessage (store : SessionStore) (conversationId : String) (role : Role)
    (content : String) (now : Int) (nowIso : String) : SessionStore :=
  if conversationId = "" then store
  else
    match store conversationId with
    | none => store
    | some session =>
      fun k =>
        if k = conversationId then
          some { session with
                 messages := session.messages ++ [⟨role, content, nowIso⟩],
                 lastActivity := some now }
        else store k

/-- Model of `SessionManager.getConversation`: `null` for an unknown id,
otherwise the
last 10 messages (`messages.slice(-10)`) with the metadata. -/
def getConversation (store : SessionStore) (conversationId : String) :
    Option (List StoredMessage × SessionMetadata) :=
  match store conversationId with
  | none => none
  | some session => some (sliceLast 10 session.messages, session.metadata)

/-- The inactivity threshold of `cleanupInactive`: one hour in milliseconds. -/
def ONE_HOUR : Int := 60 * 60 * 1000

/-- Whether `cleanupInactive` keeps a session at sweep time `now`: sessions
with no `lastActivity` are skipped (kept); otherwise kept unless
`now - lastActivity > ONE_HOUR`. -/
def keepSession (now : Int) (session : Session) : Bool :=
  match session.lastActivity with
  | none => true
  | some t => !(decide (ONE_HOUR < now - t))

/-- Model of `SessionManager.cleanupInactive` run once at time `now`:
deletes exactly
the visited sessions whose age strictly exceeds `ONE_HOUR`. -/
def cleanupInactive (store : SessionStore) (now : Int) : SessionStore :=
  fun k =>
    match store k with
    | none => none
    | some session => if keepSession now session then some session else none

example : sliceLast 2 [1, 2, 3, 4] = [3, 4] := by decide
example : joinWith "-" ["a", "b", "c"] = "a-b-c" := by decide
example : estimateConfidence [⟨"d", some (mkRat 71 100), none⟩] = Confidence.high := by decide
example : estimateConfidence [⟨"d", some (mkRat 55 100), none⟩] = Confidence.medium := by decide
example : estimateConfidence [⟨"d", some (mkRat 1 10), none⟩] = Confidence.low := by decide
example : estimateConfidence [] = Confidence.low := by decide
example : toFixed3 (mkRat 82 100) = "0.820" := by decide
example : renderContextPart 0 ⟨"d", some (mkRat 82 100), some "PTO"⟩ =
    "Source 1 (score: 0.820):\nPTO" := by decide

/-! ## Helper lemmas -/

theorem joinWith_cons_eq_append (sep a : String) (l : List String) :
    ∃ t, joinWith sep (a :: l) = a ++ t := by
  cases l with
  | nil => exact ⟨"", by simp [joinWith]⟩
  | cons b rest =>
    exact ⟨sep ++ joinWith sep (b :: rest), by simp [joinWith, String.append_assoc]⟩

theorem string_append_ne_empty (a b : String) (ha : a ≠ "") : a ++ b ≠ "" := by
  intro h
  apply ha
  have hd : a.data ++ b.data = [] := by
    have hdata := congrArg String.data h
    rwa [String.data_append] at hdata
  exact String.ext (by simp [(List.append_eq_nil.mp hd).1])

theorem estimateConfidence_nil : estimateConfidence [] = Confidence.low := by decide

/-! ## Claim theorems -/

/-- C3: for every sequence of retrieved documents, the confidence estimate is
`high` when the maximum score is at least 0.7, `medium` when it is at least
0.4 and below 0.7, and `low` otherwise; the maximum score of an empty
document sequence is 0 (so the empty sequence yields `low`). -/
theorem estimateConfidence_thresholds (documents : List RetrievedDoc) :
    (mkRat 7 10 ≤ maxScore (documents.map scoreOrZero) →
      estimateConfidence documents = Confidence.high)
    ∧ (mkRat 4 10 ≤ maxScore (documents.map scoreOrZero) ∧
        maxScore (documents.map scoreOrZero) < mkRat 7 10 →
      estimateConfidence documents = Confidence.medium)
    ∧ (maxScore (documents.map scoreOrZero) < mkRat 4 10 →
      estimateConfidence documents = Confidence.low)
    ∧ (documents = [] → maxScore (documents.map scoreOrZero) = 0) := by
  refine ⟨fun h => ?_, fun h => ?_, fun h => ?_, fun h => ?_⟩
  · simp only [estimateConfidence]
    rw [if_pos h]
  · simp only [estimateConfidence]
    rw [if_neg (not_le.mpr h.2), if_pos h.1]
  · simp only [estimateConfidence]
    rw [if_neg (not_le.mpr (lt_of_lt_of_le h (by norm_num [Rat.mkRat_eq_div]))),
      if_neg (not_le.mpr h)]
  · subst h; rfl

/-- Witness for C3 at a one-document input with score 0.71. -/
theorem estimateConfidence_thresholds_witness :
    mkRat 7 10 ≤ maxScore ([RetrievedDoc.mk "d1" (some (mkRat 71 100)) none].map scoreOrZero)
    ∧ estimateConfidence [RetrievedDoc.mk "d1" (some (mkRat 71 100)) none] = Confidence.high :=
  ⟨by decide,
   (estimateConfidence_thresholds [RetrievedDoc.mk "d1" (some (mkRat 71 100)) none]).1 (by decide)⟩

/-- C6: with empty context text the context section of the composed prompt is the
literal placeholder `[No context available]`, and with empty recent history
the history section is the literal placeholder `[No previous conversation]`. -/
theorem prompt_placeholder_sections (systemPrompt contextText userQuery : String)
    (historyTail : List Message) :
    (ragPromptParts systemPrompt "" historyTail userQuery)[3]? =
      some "[No context available]"
    ∧ (ragPromptParts systemPrompt contextText [] userQuery)[6]? =
      some "[No previous conversation]" :=
  ⟨rfl, rfl⟩

/-- C7: when context retrieval fails, the orchestrator composes the prompt
with empty context text and still returns a result whose sources are empty
and whose confidence is `low`; the failure is not propagated. -/
theorem retrieval_failure_degrades (e : String)
    (gen : String → List Message → Except String String)
    (userQuery : String) (conversationHistory : List Message) :
    ragPromptOf (Except.error e) userQuery conversationHistory =
      composePrompt systemPromptText "" (sliceLast 5 conversationHistory) userQuery
    ∧ (generateRAGResponse (Except.error e) gen userQuery conversationHistory).sources = []
    ∧ (generateRAGResponse (Except.error e) gen userQuery conversationHistory).confidence =
        Confidence.low := by
  refine ⟨rfl, ?_, ?_⟩ <;>
    cases hgen : gen (ragPromptOf (Except.error e) userQuery conversationHistory)
        (sliceLast 5 conversationHistory) <;>
      simp [generateRAGResponse, hgen, fallbackResult, contextResultOf, getRelevantContext,
        estimateConfidence_nil]

/-- C1: the orchestrator always returns a well-formed `RAGResult` for every
behaviour of the retrieval and generation providers, and when the generation
provider throws it returns the fixed fallback text with empty sources and
confidence `low`. -/
theorem generateRAGResponse_total_and_fallback
    (retrieval : Except String (List RetrievedDoc))
    (gen : String → List Message → Except String String)
    (userQuery : String) (conversationHistory : List Message) :
    (∃ r : RAGResult, generateRAGResponse retrieval gen userQuery conversationHistory = r)
    ∧ (∀ e, gen (ragPromptOf retrieval userQuery conversationHistory)
          (sliceLast 5 conversationHistory) = Except.error e →
        generateRAGResponse retrieval gen userQuery conversationHistory =
          { response := fallbackText, sources := [], confidence := Confidence.low }) := by
  refine ⟨⟨_, rfl⟩, fun e hgen => ?_⟩
  simp [generateRAGResponse, hgen, fallbackResult]

/-- Witness for C1: a generation provider that throws yields the fallback. -/
theorem generateRAGResponse_total_and_fallback_witness :
    generateRAGResponse (Except.ok []) (fun _ _ => Except.error "boom") "q" [] =
      { response := fallbackText, sources := [], confidence := Confidence.low } :=
  (generateRAGResponse_total_and_fallback (Except.ok [])
    (fun _ _ => Except.error "boom") "q" []).2 "boom" rfl

set_option maxRecDepth 4000 in
/-- C2 counterexample: the text posted to the generation model is not the
output of the composer — the adapter wraps it first. -/
theorem textSentToModel_ne_ragPrompt :
    textSentToModel (Except.ok []) "ping" [] ≠ ragPromptOf (Except.ok []) "ping" [] := by
  decide

/-- C2 (amended): the orchestrator passes exactly the output of the composer to the
generation adapter, and the adapter appends a `Conversation so far:` section
rendering the same recent history plus a trailing `Assistant:` marker before
posting to the model; the composed sections appear unmodified as a prefix with
nothing prepended. -/
theorem textSentToModel_eq_ragPrompt_append
    (retrieval : Except String (List RetrievedDoc)) (userQuery : String)
    (conversationHistory : List Message) :
    ragPromptOf retrieval userQuery conversationHistory =
      composePrompt systemPromptText (contextResultOf retrieval).1
        (sliceLast 5 conversationHistory) userQuery
    ∧ textSentToModel retrieval userQuery conversationHistory =
      ragPromptOf retrieval userQuery conversationHistory ++
        ("\n\nConversation so far:\n" ++
          (renderHistoryLines (sliceLast 5 conversationHistory) ++ "\n\nAssistant:")) :=
  ⟨rfl, rfl⟩

/-- C4: for a stored conversation with more than 10 appended messages,
`getConversation` returns exactly the last 10 messages in original append
order together with the metadata of the conversation; for an unknown id it returns
a not-found result. -/
theorem getConversation_last_ten (store : SessionStore) (conversationId : String) :
    (∀ session, store conversationId = some session → 10 < session.messages.length →
      getConversation store conversationId =
        some (session.messages.drop (session.messages.length - 10), session.metadata)
      ∧ (session.messages.drop (session.messages.length - 10)).length = 10
      ∧ session.messages.take (session.messages.length - 10) ++
          session.messages.drop (session.messages.length - 10) = session.messages)
    ∧ (store conversationId = none → getConversation store conversationId = none) := by
  constructor
  · intro session hs hlen
    refine ⟨?_, ?_, List.take_append_drop _ _⟩
    · simp [getConversation, hs, sliceLast]
    · rw [List.length_drop]
      omega
  · intro hs
    simp [getConversation, hs]

/-- Witness for C4 at a conversation holding 11 messages. -/
theorem getConversation_last_ten_witness :
    getConversation
        (fun k => if k = "c" then
          some ⟨List.replicate 11 ⟨Role.user, "m", "t"⟩, some 0, ⟨none, "s"⟩⟩
         else none) "c"
      = some ((List.replicate 11 (⟨Role.user, "m", "t"⟩ : StoredMessage)).drop
          ((List.replicate 11 (⟨Role.user, "m", "t"⟩ : StoredMessage)).length - 10),
          ⟨none, "s"⟩) :=
  ((getConversation_last_ten
      (fun k => if k = "c" then
        some ⟨List.replicate 11 ⟨Role.user, "m", "t"⟩, some 0, ⟨none, "s"⟩⟩
       else none) "c").1
    ⟨List.replicate 11 ⟨Role.user, "m", "t"⟩, some 0, ⟨none, "s"⟩⟩
    (by decide) (by decide)).1

/-- C8: one run of the expiry sweep removes every conversation whose
`lastActivity` is more than one hour before the sweep time, and keeps every
conversation whose `lastActivity` is less than one hour old unchanged. -/
theorem cleanupInactive_expiry (store : SessionStore) (now : Int) (id : String)
    (session : Session) (t : Int) (hs : store id = some session)
    (ht : session.lastActivity = some t) :
    (ONE_HOUR < now - t → cleanupInactive store now id = none)
    ∧ (now - t < ONE_HOUR → cleanupInactive store now id = some session) := by
  constructor
  · intro h
    have hk : keepSession now session = false := by
      simp [keepSession, ht, h]
    simp [cleanupInactive, hs, hk]
  · intro h
    have hk : keepSession now session = true := by
      simp [keepSession, ht]
      omega
    simp [cleanupInactive, hs, hk]

/-- Witness for C8: a session one hour and one millisecond old is swept. -/
theorem cleanupInactive_expiry_witness :
    cleanupInactive
        (fun k => if k = "c" then some ⟨[], some 0, ⟨none, "s"⟩⟩ else none)
        3600001 "c" = none :=
  (cleanupInactive_expiry
      (fun k => if k = "c" then some ⟨[], some 0, ⟨none, "s"⟩⟩ else none)
      3600001 "c" ⟨[], some 0, ⟨none, "s"⟩⟩ 0
      (by decide) rfl).1 (by decide)

/-- C10: the sweep removes only conversations strictly older than one hour: a
conversation whose `lastActivity` is exactly one hour before the sweep time,
or whose `lastActivity` field is missing, is retained. -/
theorem cleanupInactive_boundary (store : SessionStore) (now : Int) (id : String)
    (session : Session) (hs : store id = some session) :
    (session.lastActivity = some (now - ONE_HOUR) →
      cleanupInactive store now id = some session)
    ∧ (session.lastActivity = none → cleanupInactive store now id = some session) := by
  constructor
  · intro h
    have hk : keepSession now session = true := by
      simp [keepSession, h]
    simp [cleanupInactive, hs, hk]
  · intro h
    have hk : keepSession now session = true := by
      simp [keepSession, h]
    simp [cleanupInactive, hs, hk]

/-- Witness for C10: a session aged exactly one hour survives the sweep. -/
theorem cleanupInactive_boundary_witness :
    cleanupInactive
        (fun k => if k = "c" then
          some ⟨[], some ((3600001 : Int) - ONE_HOUR), ⟨none, "s"⟩⟩ else none)
        3600001 "c"
      = some ⟨[], some ((3600001 : Int) - ONE_HOUR), ⟨none, "s"⟩⟩ :=
  (cleanupInactive_boundary
      (fun k => if k = "c" then
        some ⟨[], some ((3600001 : Int) - ONE_HOUR), ⟨none, "s"⟩⟩ else none)
      3600001 "c" ⟨[], some ((3600001 : Int) - ONE_HOUR), ⟨none, "s"⟩⟩
      (by decide)).1 rfl

theorem renderMessageLine_shape (m : Message) :
    renderMessageLine m = "User: " ++ m.content ∨
    renderMessageLine m = "Assistant: " ++ m.content := by
  unfold renderMessageLine
  by_cases hrole : m.role = Role.assistant
  · right
    rw [if_pos hrole, ← String.append_assoc]
    exact congrArg (· ++ m.content) (show ("Assistant" : String) ++ ": " = "Assistant: " by decide)
  · left
    rw [if_neg hrole, ← String.append_assoc]
    exact congrArg (· ++ m.content) (show ("User" : String) ++ ": " = "User: " by decide)

theorem renderMessageLine_ne_empty (m : Message) : renderMessageLine m ≠ "" := by
  rcases renderMessageLine_shape m with h | h <;> rw [h] <;>
    exact string_append_ne_empty _ _ (by decide)

theorem renderHistoryLines_cons_ne_empty (m : Message) (rest : List Message) :
    renderHistoryLines (m :: rest) ≠ "" := by
  unfold renderHistoryLines
  rw [List.map_cons]
  obtain ⟨t, ht⟩ :=
    joinWith_cons_eq_append "\n" (renderMessageLine m) (rest.map renderMessageLine)
  rw [ht]
  exact string_append_ne_empty _ _ (renderMessageLine_ne_empty m)

/-- C5: for a conversation history with more than 5 entries, the
`Recent conversation:` section of the composed prompt is exactly the last 5
entries, oldest first, each rendered as a `User: ...` or `Assistant: ...`
line; earlier entries do not appear in that section. -/
theorem recent_conversation_last_five (systemPrompt contextText userQuery : String)
    (conversationHistory : List Message) (h : 5 < conversationHistory.length) :
    (ragPromptParts systemPrompt contextText (sliceLast 5 conversationHistory) userQuery)[6]? =
      some (joinWith "\n"
        ((conversationHistory.drop (conversationHistory.length - 5)).map renderMessageLine))
    ∧ (conversationHistory.drop (conversationHistory.length - 5)).length = 5
    ∧ conversationHistory.take (conversationHistory.length - 5) ++
        conversationHistory.drop (conversationHistory.length - 5) = conversationHistory
    ∧ ∀ m ∈ conversationHistory.drop (conversationHistory.length - 5),
        renderMessageLine m = "User: " ++ m.content ∨
        renderMessageLine m = "Assistant: " ++ m.content := by
  have hlen5 : (conversationHistory.drop (conversationHistory.length - 5)).length = 5 := by
    rw [List.length_drop]
    omega
  refine ⟨?_, hlen5, List.take_append_drop _ _, fun m _ => renderMessageLine_shape m⟩
  show some (historySectionText (sliceLast 5 conversationHistory)) = _
  unfold sliceLast
  cases htail : conversationHistory.drop (conversationHistory.length - 5) with
  | nil =>
    rw [htail] at hlen5
    simp at hlen5
  | cons m rest =>
    unfold historySectionText
    rw [if_neg (renderHistoryLines_cons_ne_empty m rest)]
    rfl

/-- Witness for C5 at a six-entry history. -/
theorem recent_conversation_last_five_witness :
    (ragPromptParts "sys" "ctx"
        (sliceLast 5 (List.replicate 6 (⟨Role.user, "hello"⟩ : Message))) "q")[6]? =
      some (joinWith "\n"
        (((List.replicate 6 (⟨Role.user, "hello"⟩ : Message)).drop
          ((List.replicate 6 (⟨Role.user, "hello"⟩ : Message)).length - 5)).map
            renderMessageLine)) :=
  (recent_conversation_last_five "sys" "ctx" "q"
    (List.replicate 6 ⟨Role.user, "hello"⟩) (by decide)).1

theorem mkContextText_cons_starts_source (m : RetrievedDoc) (rest : List RetrievedDoc) :
    ∃ t, mkContextText (m :: rest) = "Source " ++ t := by
  unfold mkContextText
  obtain ⟨t1, ht1⟩ := joinWith_cons_eq_append "\n\n" (renderContextPart 0 m)
    (mapWithIndex renderContextPart 1 rest)
  rw [show mapWithIndex renderContextPart 0 (m :: rest) =
      renderContextPart 0 m :: mapWithIndex renderContextPart 1 rest from rfl, ht1]
  unfold renderContextPart
  exact ⟨_, String.append_assoc _ _ _⟩

theorem source_prefix_ne (t : String) (c : Char) (u : List Char) (hc : c ≠ 'S') :
    "Source " ++ t ≠ String.mk (c :: u) := by
  intro h
  have hd := congrArg String.data h
  rw [String.data_append] at hd
  have : 'S' :: ("ource ".data ++ t.data) = c :: u := hd
  exact hc (List.cons_eq_cons.mp this).1.symm

/-- C9: when retrieval returns at least one match, the rendered context text
is non-empty (each match contributes a non-empty `Source ...` header even when
its metadata lacks a text field), so the context section of the composed prompt is
the context text itself and never the `[No context available]` placeholder. -/
theorem context_section_not_placeholder (ms : List RetrievedDoc) (h : ms ≠ []) :
    mkContextText ms ≠ ""
    ∧ contextSectionText (mkContextText ms) = mkContextText ms
    ∧ contextSectionText (mkContextText ms) ≠ "[No context available]"
    ∧ ∀ i m, ms[i]? = some m → renderContextPart i m ≠ "" := by
  cases ms with
  | nil => exact absurd rfl h
  | cons m rest =>
    obtain ⟨t, ht⟩ := mkContextText_cons_starts_source m rest
    have hne : mkContextText (m :: rest) ≠ "" := by
      rw [ht]
      exact string_append_ne_empty _ _ (by decide)
    refine ⟨hne, ?_, ?_, ?_⟩
    · unfold contextSectionText
      rw [if_neg hne]
    · unfold contextSectionText
      rw [if_neg hne, ht]
      exact source_prefix_ne t '[' "No context available]".data (by decide)
    · intro i d _
      unfold renderContextPart
      exact string_append_ne_empty _ _ (by decide)

/-- Witness for C9 at a single match whose metadata has no text field. -/
theorem context_section_not_placeholder_witness :
    mkContextText [RetrievedDoc.mk "d1" (some (mkRat 82 100)) none] ≠ ""
    ∧ contextSectionText (mkContextText [RetrievedDoc.mk "d1" (some (mkRat 82 100)) none]) =
        mkContextText [RetrievedDoc.mk "d1" (some (mkRat 82 100)) none]
    ∧ contextSectionText (mkContextText [RetrievedDoc.mk "d1" (some (mkRat 82 100)) none]) ≠
        "[No context available]"
    ∧ ∀ i m, ([RetrievedDoc.mk "d1" (some (mkRat 82 100)) none])[i]? = some m →
        renderContextPart i m ≠ "" :=
  context_section_not_placeholder [RetrievedDoc.mk "d1" (some (mkRat 82 100)) none]
    (List.cons_ne_nil _ _)

end PersonalAssistant
